import Mathlib

/-!
Shallow embedding of the core data pipeline of `src/src/App.js` in the
deta-dash-app repository: dataset records, the descriptive-statistics and
frequency-distribution helpers, the chart validation/repair pass and the
table materializer that live inside `analyzeAndGenerateDashboard`.

Numbers are modelled by `JsNum`: NaN, the two infinities, and finite
doubles represented exactly as rationals — every concrete value in the
claims is exactly representable, and the `parseFloat` results the code
manipulates, the `Infinity` literal included (its parse passes the
source's `!isNaN(...)` test), are all covered.  `toFixed(2)` is modelled
as rounding to two fractional digits (ties toward the larger value, as
the ECMAScript `toFixed` specification prescribes); the string formatting
of the rounded value is presentation only and is not modelled.
-/

namespace DetaDash

/-- Numeric value of a list of decimal digit characters, most significant
first, as in the usual left fold a JavaScript number literal denotes. -/
def natOfDigits (l : List Char) : Nat :=
  l.foldl (fun n c => 10 * n + (c.toNat - 48)) 0

/-- Exponent part of a JavaScript float literal: after the `e`/`E` an
optional sign and digits.  When no digits follow, `parseFloat` ignores the
exponent marker, which this models by returning exponent `0`. -/
def expOfChars (t : List Char) : Int :=
  match t with
  | '-' :: u =>
      if u.takeWhile Char.isDigit = [] then 0
      else -(natOfDigits (u.takeWhile Char.isDigit) : Int)
  | '+' :: u =>
      if u.takeWhile Char.isDigit = [] then 0
      else (natOfDigits (u.takeWhile Char.isDigit) : Int)
  | _ =>
      if t.takeWhile Char.isDigit = [] then 0
      else (natOfDigits (t.takeWhile Char.isDigit) : Int)

/-- Whitespace accepted before the number by `parseFloat`: the full
ECMAScript WhiteSpace and LineTerminator sets (tab, line feed, vertical
tab, form feed, carriage return, space, no-break space, the Unicode
space separators, the line and paragraph separators, and the zero-width
no-break space). -/
def isJsSpace (c : Char) : Bool :=
  let n := c.toNat
  n = 0x9 || n = 0xA || n = 0xB || n = 0xC || n = 0xD || n = 0x20 ||
    n = 0xA0 || n = 0x1680 || (0x2000 ≤ n && n ≤ 0x200A) || n = 0x2028 ||
    n = 0x2029 || n = 0x202F || n = 0x205F || n = 0x3000 || n = 0xFEFF

/-- A JavaScript number as the statistics and validation code consumes
it: NaN, one of the two infinities, or a finite double modelled exactly
as a rational.  Signed zero is collapsed to the single rational zero;
no claim distinguishes the two JavaScript zeros. -/
inductive JsNum where
  | nan : JsNum
  | inf : JsNum
  | negInf : JsNum
  | fin : Rat → JsNum
  deriving DecidableEq, Repr

/-- JavaScript `-x`. -/
def jsNeg : JsNum → JsNum
  | .nan => .nan
  | .inf => .negInf
  | .negInf => .inf
  | .fin q => .fin (-q)

/-- JavaScript `+` on numbers: NaN propagates, opposite infinities give
NaN, an infinity absorbs finite operands. -/
def jsAdd : JsNum → JsNum → JsNum
  | .nan, _ => .nan
  | _, .nan => .nan
  | .inf, .negInf => .nan
  | .negInf, .inf => .nan
  | .inf, _ => .inf
  | _, .inf => .inf
  | .negInf, _ => .negInf
  | _, .negInf => .negInf
  | .fin a, .fin b => .fin (a + b)

/-- JavaScript `-` on numbers, which equals adding the negation. -/
def jsSub (a b : JsNum) : JsNum := jsAdd a (jsNeg b)

/-- JavaScript `*` on numbers: NaN propagates, an infinity times zero is
NaN, otherwise infinities combine by sign. -/
def jsMul : JsNum → JsNum → JsNum
  | .nan, _ => .nan
  | _, .nan => .nan
  | .inf, .inf => .inf
  | .inf, .negInf => .negInf
  | .negInf, .inf => .negInf
  | .negInf, .negInf => .inf
  | .inf, .fin q => if q = 0 then .nan else if 0 < q then .inf else .negInf
  | .fin q, .inf => if q = 0 then .nan else if 0 < q then .inf else .negInf
  | .negInf, .fin q => if q = 0 then .nan else if 0 < q then .negInf else .inf
  | .fin q, .negInf => if q = 0 then .nan else if 0 < q then .negInf else .inf
  | .fin a, .fin b => .fin (a * b)

/-- JavaScript `/` on numbers: NaN propagates, infinity over infinity is
NaN, a finite value over an infinity is zero, zero over zero is NaN, a
nonzero value over zero is a signed infinity (the model's single zero
counts as the positive one). -/
def jsDiv : JsNum → JsNum → JsNum
  | .nan, _ => .nan
  | _, .nan => .nan
  | .inf, .inf => .nan
  | .inf, .negInf => .nan
  | .negInf, .inf => .nan
  | .negInf, .negInf => .nan
  | .inf, .fin q => if 0 ≤ q then .inf else .negInf
  | .negInf, .fin q => if 0 ≤ q then .negInf else .inf
  | .fin _, .inf => .fin 0
  | .fin _, .negInf => .fin 0
  | .fin a, .fin b =>
      if b = 0 then (if a = 0 then .nan else if 0 < a then .inf else .negInf)
      else .fin (a / b)

/-- The total order the ascending numeric sort `(a, b) => a - b` realizes
on NaN-free inputs: `-Infinity` below every finite value below
`Infinity`.  (The comparator returns NaN on two equal infinities, where
any relative order yields the same sorted list; the statistics values
never contain NaN, so the NaN rows here are unreachable.) -/
def jsLeB : JsNum → JsNum → Bool
  | .negInf, _ => true
  | _, .inf => true
  | .inf, _ => false
  | _, .negInf => false
  | .fin a, .fin b => a ≤ b
  | .nan, _ => true
  | _, .nan => true

/-- JavaScript `Math.min` on two numbers (NaN propagates). -/
def jsMin (a b : JsNum) : JsNum :=
  match a, b with
  | .nan, _ => .nan
  | _, .nan => .nan
  | _, _ => if jsLeB a b then a else b

/-- JavaScript `Math.max` on two numbers (NaN propagates). -/
def jsMax (a b : JsNum) : JsNum :=
  match a, b with
  | .nan, _ => .nan
  | _, .nan => .nan
  | _, _ => if jsLeB a b then b else a

/-- Model of the JavaScript `parseFloat`: leading whitespace, an optional
sign, then either the `Infinity` literal or a decimal literal (integer
digits, an optional fractional part, an optional exponent), trailing junk
ignored.  `none` models `NaN`; note that `"Infinity"` parses to an
infinity, which the source's `!isNaN(parseFloat(v))` test accepts. -/
def jsParseFloat (s : String) : Option JsNum :=
  let cs := s.toList.dropWhile isJsSpace
  let signSplit : Bool × List Char :=
    match cs with
    | '-' :: t => (true, t)
    | '+' :: t => (false, t)
    | _ => (false, cs)
  let neg := signSplit.1
  let cs1 := signSplit.2
  match cs1 with
  | 'I' :: 'n' :: 'f' :: 'i' :: 'n' :: 'i' :: 't' :: 'y' :: _ =>
      some (if neg then .negInf else .inf)
  | _ =>
    let intPart := cs1.takeWhile Char.isDigit
    let cs2 := cs1.dropWhile Char.isDigit
    let fracAndRest : List Char × List Char :=
      match cs2 with
      | '.' :: t => (t.takeWhile Char.isDigit, t.dropWhile Char.isDigit)
      | _ => ([], cs2)
    let fracPart := fracAndRest.1
    let cs3 := fracAndRest.2
    if intPart = [] ∧ fracPart = [] then none
    else
      let mant : Rat := (natOfDigits (intPart ++ fracPart) : Rat) / (10 : Rat) ^ fracPart.length
      let expo : Int :=
        match cs3 with
        | 'e' :: t => expOfChars t
        | 'E' :: t => expOfChars t
        | _ => 0
      some (.fin ((if neg then (-1 : Rat) else 1) * mant * (10 : Rat) ^ expo))

/-- One row of the uploaded dataset: a mapping from column name to raw
string value, keys in insertion order.  An absent key models both a
missing field and a JavaScript `undefined`/`null` value. -/
abbrev Record := List (String × String)

/-- Column set of a record, in key order, as `Object.keys` yields it. -/
def recordKeys (r : Record) : List String := r.map Prod.fst

/-- Field access `row[col]`: `none` models `undefined`. -/
def getVal (r : Record) (k : String) : Option String := List.lookup k r

/-- The numeric conversion the source applies throughout:
`parseFloat(row[col])`, with `none` for `NaN`. -/
def numValue (r : Record) (k : String) : Option JsNum :=
  (getVal r k).bind jsParseFloat

/-- The notion the specification text uses — the value converts to a
FINITE number — as `Number.isFinite(parseFloat(v))` would compute it.
It differs from the source's `!isNaN(parseFloat(v))` test exactly on the
infinities. -/
def jsIsFinite (o : Option JsNum) : Bool :=
  match o with
  | some (.fin _) => true
  | _ => false

/-- The test `!isNaN(parseFloat(row[col]))` used to pick fallback columns. -/
def isNumericCol (r : Record) (k : String) : Bool :=
  (numValue r k).isSome

/-- `DATA_SAMPLE_LIMIT_FOR_CALCS` from `App.js` line 33. -/
def DATA_SAMPLE_LIMIT_FOR_CALCS : Nat := 1000

/-- Floor of a rational number, computed by floor division of the
numerator by the (positive) denominator. -/
def ratFloor (q : Rat) : Int := q.num.fdiv q.den

/-- Rounding to the nearest integer, ties toward the larger candidate, as
ECMAScript specifies for `toFixed`. -/
def jsRound (q : Rat) : Int := ratFloor (q + 1 / 2)

/-- Rounding to two fractional digits, modelling `x.toFixed(2)` on an
exact rational input. -/
def toFixed2 (q : Rat) : Rat := (jsRound (q * 100) : Rat) / 100

/-- Integer square root by digit recursion with explicit fuel; for
`fuel ≥ n` it computes the floor of the square root of `n`. -/
def isqrtFuel : Nat → Nat → Nat
  | 0, _ => 0
  | fuel + 1, n =>
      if n < 2 then n
      else
        let r := 2 * isqrtFuel fuel (n / 4)
        if (r + 1) * (r + 1) ≤ n then r + 1 else r

/-- Floor of the square root of a natural number. -/
def isqrt (n : Nat) : Nat := isqrtFuel n n

/-- Model of `Math.sqrt(v).toFixed(2)` for a nonnegative rational `v`:
the nearest multiple of `1/100` to the square root (ties larger).  The
rounded numerator is `⌊(⌊√(40000·v)⌋ + 1) / 2⌋`: with `a = √(10000·v)`
one has `round(a) = ⌊a + 1/2⌋ = ⌊(2a + 1)/2⌋`, `2a = √(40000·v)`, and
flooring the radicand first does not change the floor of the root. -/
def sqrtToFixed2 (v : Rat) : Rat :=
  (((isqrt (Int.toNat (ratFloor ((40000 : Rat) * v))) + 1) / 2 : Nat) : Rat) / 100

/-- `toFixed(2)` on a JavaScript number: the infinities and NaN format as
themselves (`"Infinity"`, `"NaN"`), a finite value rounds to two
fractional digits. -/
def jsToFixed2 : JsNum → JsNum
  | .nan => .nan
  | .inf => .inf
  | .negInf => .negInf
  | .fin q => .fin (toFixed2 q)

/-- `Math.sqrt(v).toFixed(2)`: NaN for NaN and for negative inputs
(`-Infinity` included), `Infinity` for `Infinity`, the rounded square
root for a nonnegative finite value. -/
def jsSqrtToFixed2 : JsNum → JsNum
  | .nan => .nan
  | .inf => .inf
  | .negInf => .nan
  | .fin q => if q < 0 then .nan else .fin (sqrtToFixed2 q)

/-- `Math.min(...values)` over a non-empty list (`Math.min` of no
arguments is `Infinity`; the source never reaches the empty case). -/
def listMin : List JsNum → JsNum
  | [] => .inf
  | h :: t => t.foldl jsMin h

/-- `Math.max(...values)` over a non-empty list. -/
def listMax : List JsNum → JsNum
  | [] => .negInf
  | h :: t => t.foldl jsMax h

/-- The per-column statistics object built at `App.js` lines 281 to 288.
The five rounded fields model the `toFixed(2)` strings by their numeric
value. -/
structure ColStats where
  mean : JsNum
  median : JsNum
  min : JsNum
  max : JsNum
  stdDev : JsNum
  count : Nat
  deriving DecidableEq, Repr

/-- The statistics computed for one non-empty list of converted values,
exactly as `getDescriptiveStatistics` computes them: arithmetic mean,
midpoint median over the ascending sort, extrema, population standard
deviation (squared-deviation sum divided by the count;
`Math.pow(x, 2) = x * x` under IEEE arithmetic). -/
def mkStats (values : List JsNum) : ColStats :=
  let n : JsNum := .fin (values.length : Rat)
  let sum := values.foldl jsAdd (.fin 0)
  let mean := jsDiv sum n
  let sorted := values.insertionSort (fun a b => jsLeB a b = true)
  let mid := sorted.length / 2
  let median :=
    if sorted.length % 2 = 0 then
      jsDiv (jsAdd (sorted.getD (mid - 1) (.fin 0)) (sorted.getD mid (.fin 0))) (.fin 2)
    else sorted.getD mid (.fin 0)
  let variance :=
    jsDiv (values.foldl (fun acc v => jsAdd acc (jsMul (jsSub v mean) (jsSub v mean))) (.fin 0)) n
  { mean := jsToFixed2 mean
    median := jsToFixed2 median
    min := jsToFixed2 (listMin values)
    max := jsToFixed2 (listMax values)
    stdDev := jsSqrtToFixed2 variance
    count := values.length }

/-- One column of `getDescriptiveStatistics`: convert the sampled values
with `parseFloat`, drop the `NaN` ones, and produce an entry only when at
least one value remains (`App.js` lines 268 to 290). -/
def statsEntry (sampledData : List Record) (col : String) : Option (String × ColStats) :=
  let values := sampledData.filterMap (fun row => numValue row col)
  if 0 < values.length then some (col, mkStats values) else none

/-- `getDescriptiveStatistics` from `App.js` lines 263 to 292, over the
first `DATA_SAMPLE_LIMIT_FOR_CALCS` records.  The JavaScript result
object is modelled as an association list keyed by column name. -/
def getDescriptiveStatistics (data : List Record) (numericalCols : List String) :
    List (String × ColStats) :=
  numericalCols.filterMap (statsEntry (data.take DATA_SAMPLE_LIMIT_FOR_CALCS))

/-- `counts[value] = (counts[value] || 0) + 1` on a JavaScript object,
modelled on an association list that keeps first-insertion order. -/
def bump (l : List (String × Nat)) (v : String) : List (String × Nat) :=
  match l with
  | [] => [(v, 1)]
  | (k, n) :: t => if k = v then (k, n + 1) :: t else (k, n) :: bump t v

/-- The count table for one column of `getFrequencyDistribution`:
occurrences of each value over the sampled records, skipping `undefined`,
`null` and the empty string (`App.js` lines 300 to 307). -/
def freqCounts (sampledData : List Record) (col : String) : List (String × Nat) :=
  sampledData.foldl (fun counts row =>
    match getVal row col with
    | none => counts
    | some v => if v = "" then counts else bump counts v) []

/-- `getFrequencyDistribution` from `App.js` lines 295 to 311, over the
first `DATA_SAMPLE_LIMIT_FOR_CALCS` records; every requested column
receives an entry, possibly with an empty count table. -/
def getFrequencyDistribution (data : List Record) (categoricalCols : List String) :
    List (String × List (String × Nat)) :=
  categoricalCols.map (fun col => (col, freqCounts (data.take DATA_SAMPLE_LIMIT_FOR_CALCS) col))

/-- An axis binding object `{ dataKey, label }`. -/
structure Axis where
  dataKey : String
  label : String
  deriving DecidableEq, Repr

/-- One entry of `dataLinesOrBarsOrAreas`: a series binding with its
render role, bound column, styling and active-dot flag. -/
structure SeriesItem where
  type : String
  dataKey : String
  stroke : String
  fill : String
  activeDot : Bool
  deriving DecidableEq, Repr

/-- A chart configuration as received from the upstream generator and as
processed by the validation pass.  `none` for an axis models an absent
axis object. -/
structure Chart where
  chartType : String
  xAxis : Option Axis
  yAxis : Option Axis
  dataLinesOrBarsOrAreas : List SeriesItem
  colors : List String
  grid : Bool
  tooltip : Bool
  legend : Bool
  title : String
  deriving DecidableEq, Repr

/-- The series role synthesized for a repaired chart:
`chart.chartType === 'BarChart' ? 'bar' : (chart.chartType === 'AreaChart' ? 'area' : 'line')`. -/
def seriesTypeFor (chartType : String) : String :=
  if chartType = "BarChart" then "bar"
  else if chartType = "AreaChart" then "area"
  else "line"

/-- `chart.colors[0] || "#8884d8"`: the first declared color, falling back
to the fixed default when the list is empty or its head is the (falsy)
empty string. -/
def firstColor (colors : List String) : String :=
  match colors with
  | [] => "#8884d8"
  | c :: _ => if c = "" then "#8884d8" else c

/-- The truthiness test `!chart.xAxis || !chart.xAxis.dataKey`: the axis
object is absent, or its `dataKey` is the (falsy) empty string. -/
def xAxisMissing (a : Option Axis) : Bool :=
  match a with
  | none => true
  | some ax => ax.dataKey = ""

/-- The fallback columns of the repair branch (`App.js` line 498):
up to two columns of `cols` whose value in the representative record
parses to a number, in `cols` order. -/
def defaultKeysFor (cols : List String) (rec : Record) : List String :=
  (cols.filter (fun k => isNumericCol rec k)).take 2

/-- One synthesized series binding of the repair branch (`App.js` lines
500 to 506): the role derived from the chart type, the fallback column,
the first declared color (or the fixed default) for both stroke and
fill, and the active-dot flag set. -/
def synthItem (chart : Chart) (k : String) : SeriesItem :=
  { type := seriesTypeFor chart.chartType
    dataKey := k
    stroke := firstColor chart.colors
    fill := firstColor chart.colors
    activeDot := true }

/-- The x-axis assignment of the repair branch (`App.js` lines 508 to
513): when the x-axis binding is absent, bind it to the first column of
`cols` whose representative value parses to a number — guarded by string
truthiness (`if (firstNonNumericKey)`), so a column named by the empty
string is never assigned. -/
def assignXAxis (cols : List String) (rec : Record) (chart : Chart) : Chart :=
  if xAxisMissing chart.xAxis then
    match cols.find? (fun k => isNumericCol rec k) with
    | some k => if k = "" then chart else { chart with xAxis := some ⟨k, k⟩ }
    | none => chart
  else chart

/-- The recovery attempted when every original series binding was invalid
(`App.js` lines 497 to 517): synthesize bindings over the fallback
columns and possibly assign the x-axis, or drop the chart (`none`) when
no fallback column exists. -/
def repairChart (cols : List String) (rec : Record) (chart : Chart) : Option Chart :=
  if 0 < (defaultKeysFor cols rec).length then
    some (assignXAxis cols rec
      { chart with dataLinesOrBarsOrAreas := (defaultKeysFor cols rec).map (synthItem chart) })
  else none

/-- The per-chart validation/repair step from `App.js` lines 492 to 523:
series bindings naming unknown columns are filtered out; a chart left
with no valid binding (but which had some) goes through the repair
branch; a partially valid chart keeps the trimmed list; a fully valid
chart passes through unchanged. -/
def validateChart (cols : List String) (rec : Record) (chart : Chart) : Option Chart :=
  let valid := chart.dataLinesOrBarsOrAreas.filter (fun item => cols.contains item.dataKey)
  if valid.length = 0 ∧ 0 < chart.dataLinesOrBarsOrAreas.length then
    repairChart cols rec chart
  else if valid.length ≠ chart.dataLinesOrBarsOrAreas.length then
    some { chart with dataLinesOrBarsOrAreas := valid }
  else some chart

/-- The whole chart validation pass:
`parsedDashboardConfig.charts.map(...).filter(Boolean)`, with `cols` the
keys of the first record and `rec` that record itself. -/
def validateCharts (cols : List String) (rec : Record) (charts : List Chart) : List Chart :=
  charts.filterMap (validateChart cols rec)

/-- A table description as received from the upstream generator
(`tableDescriptions` entries): a title, a kind tag, and the kind-specific
optional parameters. -/
structure TableDesc where
  title : String
  type : String
  columns : Option (List String)
  column : Option String
  groupByColumn : Option String
  nValue : Option Int
  deriving DecidableEq, Repr

/-- The value stored in the `data` field of a materialized table.  The
source initializes it to an empty array and overwrites it per kind;
`notes` models an array of `{ note: ... }` objects by their note texts. -/
inductive TableData where
  | emptyArr : TableData
  | stats : List (String × ColStats) → TableData
  | freq : List (String × List (String × Nat)) → TableData
  | notes : List String → TableData
  deriving DecidableEq, Repr

/-- The result of materializing one table description: the spread
`{ ...tableDesc, data: tableData }`, which always carries a `data`
field. -/
structure MaterializedTable where
  desc : TableDesc
  data : TableData
  deriving DecidableEq, Repr

/-- Truthiness of an optional string parameter: present and non-empty. -/
def truthyStr (o : Option String) : Bool :=
  match o with
  | none => false
  | some s => s ≠ ""

/-- Truthiness of the numeric `nValue` parameter: present and nonzero. -/
def truthyInt (o : Option Int) : Bool :=
  match o with
  | none => false
  | some n => n ≠ 0

/-- The placeholder note for the unimplemented `top_n_values` kind,
exactly the template string at `App.js` line 538. -/
def topNote (cs : List String) (g : String) (n : Int) : String :=
  "Top " ++ toString n ++ " values for " ++ String.intercalate "," cs ++
    " grouped by " ++ g ++ " not fully implemented in frontend."

/-- The table materializer from `App.js` lines 526 to 541: `data` starts
as an empty array; a `summary_statistics` kind with a (truthy, hence
merely present) columns array gets descriptive statistics, a
`frequency_distribution` kind with a non-empty column name gets a
frequency table, a `top_n_values` kind with all three parameters truthy
gets the one-element placeholder note, and anything else keeps the empty
array.  The result spreads the description and always carries `data`. -/
def materializeTable (records : List Record) (td : TableDesc) : MaterializedTable :=
  let tableData :=
    if td.type = "summary_statistics" ∧ td.columns.isSome then
      TableData.stats (getDescriptiveStatistics records (td.columns.getD []))
    else if td.type = "frequency_distribution" ∧ truthyStr td.column then
      TableData.freq (getFrequencyDistribution records [td.column.getD ""])
    else if td.type = "top_n_values" ∧ td.columns.isSome ∧ truthyStr td.groupByColumn ∧
        truthyInt td.nValue then
      TableData.notes [topNote (td.columns.getD []) (td.groupByColumn.getD "") (td.nValue.getD 0)]
    else TableData.emptyArr
  ⟨td, tableData⟩

/-- The full table pass: `parsedDashboardConfig.tableDescriptions.map(...)`. -/
def materializeTables (records : List Record) (tds : List TableDesc) : List MaterializedTable :=
  tds.map (materializeTable records)

/-- Split a list of characters at every occurrence of a separator, the
recursive analogue of `String.splitOn` for one-character separators. -/
def splitOnChar (sep : Char) : List Char → List (List Char)
  | [] => [[]]
  | c :: t =>
      let rest := splitOnChar sep t
      if c = sep then [] :: rest
      else (c :: rest.headD []) :: rest.tail

/-- Split a string at every occurrence of a separator character. -/
def strSplitOn (sep : Char) (s : String) : List String :=
  (splitOnChar sep s.toList).map (fun l => String.mk l)

/-- Modelled from the spec: the CSV ingestion step (§4.1) performed by the
external PapaParse collaborator invoked at `App.js` line 227 with
`header: true, skipEmptyLines: true`, restricted to well-formed unquoted
input — the first non-empty line is the header, each later non-empty line
becomes one record keyed by the header. -/
def parseCsv (text : String) : List Record :=
  let lines := (strSplitOn '\n' text).filter (fun l => l ≠ "")
  match lines with
  | [] => []
  | header :: rows =>
      let keys := strSplitOn ',' header
      rows.map (fun l => keys.zip (strSplitOn ',' l))

/-! Concrete datasets, charts and table descriptions used to instantiate
the claim theorems below. -/

/-- The end-to-end CSV example of the specification. -/
def csvExample : String := "name,score\nA,10\nB,20\nC,30\n"

/-- A record with the single numeric column `x`. -/
def oneColRecord : Record := [("x", "1")]

/-- A chart whose only series binding is valid but whose x-axis references
the unknown column `ghost`. -/
def ghostAxisChart : Chart :=
  { chartType := "LineChart"
    xAxis := some ⟨"ghost", "g"⟩
    yAxis := none
    dataLinesOrBarsOrAreas := [⟨"line", "x", "#111111", "#111111", true⟩]
    colors := ["#111111"]
    grid := true
    tooltip := true
    legend := true
    title := "t" }

/-- A chart whose only series binding is valid for the column `x`. -/
def passThroughChart : Chart :=
  { chartType := "BarChart"
    xAxis := none
    yAxis := none
    dataLinesOrBarsOrAreas := [⟨"bar", "x", "#222222", "#222222", false⟩]
    colors := []
    grid := false
    tooltip := false
    legend := false
    title := "w" }

/-- A chart with no x-axis whose only series binding references the
unknown column `ghost`. -/
def ghostSeriesChart : Chart :=
  { chartType := "LineChart"
    xAxis := none
    yAxis := none
    dataLinesOrBarsOrAreas := [⟨"line", "ghost", "s", "f", false⟩]
    colors := []
    grid := true
    tooltip := true
    legend := true
    title := "t" }

/-- A record whose single column is named by the empty string and holds a
numeric value. -/
def emptyNameRecord : Record := [("", "1")]

/-- The representative record of the repair example in the specification:
numeric columns `x` and `y`, non-numeric column `label`. -/
def threeColRecord : Record := [("x", "1"), ("y", "2"), ("label", "A")]

/-- A record with no numeric column. -/
def labelOnlyRecord : Record := [("label", "A")]

/-- A record whose only value does not convert to a number. -/
def helloRecord : Record := [("a", "hello")]

/-- A record whose only value parses to `Infinity`: it passes the code's
`!isNaN(parseFloat(...))` test but converts to no finite number. -/
def infRecord : Record := [("a", "Infinity")]

/-- A record with an `Infinity`-valued column before a finite-valued one. -/
def infXRecord : Record := [("i", "Infinity"), ("x", "1")]

/-- A record whose only value is the empty string. -/
def emptyValRecord : Record := [("a", "")]

/-- A `top_n_values` table description missing all three parameters. -/
def topnMissingParams : TableDesc :=
  { title := "t"
    type := "top_n_values"
    columns := none
    column := none
    groupByColumn := none
    nValue := none }

/-- A table description of an unknown kind. -/
def unknownKindTable : TableDesc :=
  { title := "t"
    type := "pivot"
    columns := none
    column := none
    groupByColumn := none
    nValue := none }

/-- A fully parameterized `top_n_values` table description. -/
def topnFullParams : TableDesc :=
  { title := "t"
    type := "top_n_values"
    columns := some ["a", "b"]
    column := none
    groupByColumn := some "g"
    nValue := some 5 }

end DetaDash

namespace DetaDash

/-! Helper lemmas shared by the claim theorems. -/

/-- Assigning the x-axis never changes the series bindings. -/
theorem assignXAxis_dataLines (cols : List String) (rec : Record) (c : Chart) :
    (assignXAxis cols rec c).dataLinesOrBarsOrAreas = c.dataLinesOrBarsOrAreas := by
  unfold assignXAxis
  split
  · split
    · split <;> rfl
    · rfl
  · rfl

/-- Every series binding of a repaired chart names a known column. -/
theorem repairChart_series_contains {cols : List String} {rec : Record} {c c2 : Chart}
    (h : repairChart cols rec c = some c2) :
    ∀ b ∈ c2.dataLinesOrBarsOrAreas, cols.contains b.dataKey = true := by
  unfold repairChart at h
  split at h
  · obtain rfl : _ = c2 := Option.some_injective _ h
    intro b hb
    rw [assignXAxis_dataLines] at hb
    simp only [List.mem_map] at hb
    obtain ⟨k, hk, rfl⟩ := hb
    have hk2 : k ∈ cols := List.mem_of_mem_filter (List.take_subset _ _ hk)
    simpa [synthItem, List.elem_iff] using hk2
  · exact absurd h (by simp)

/-- Every series binding of a validated chart names a known column. -/
theorem validateChart_series_contains {cols : List String} {rec : Record} {c c2 : Chart}
    (h : validateChart cols rec c = some c2) :
    ∀ b ∈ c2.dataLinesOrBarsOrAreas, cols.contains b.dataKey = true := by
  simp only [validateChart] at h
  split at h
  · exact repairChart_series_contains h
  · split at h
    · have hc : _ = c2 := Option.some_injective _ h
      intro b hb
      rw [← hc] at hb
      exact (List.mem_filter.mp hb).2
    · have hc : c = c2 := Option.some_injective _ h
      rename_i h1 h2
      intro b hb
      rw [← hc] at hb
      have hlen : (c.dataLinesOrBarsOrAreas.filter
          (fun item => cols.contains item.dataKey)).length = c.dataLinesOrBarsOrAreas.length := by
        omega
      exact List.filter_length_eq_length.mp hlen b hb

/-- A chart produced by the validation step is a fixed point of it. -/
theorem validateChart_fix {cols : List String} {rec : Record} {c c2 : Chart}
    (h : validateChart cols rec c = some c2) :
    validateChart cols rec c2 = some c2 := by
  have hfilter : c2.dataLinesOrBarsOrAreas.filter (fun item => cols.contains item.dataKey)
      = c2.dataLinesOrBarsOrAreas :=
    List.filter_eq_self.mpr (validateChart_series_contains h)
  unfold validateChart
  rw [hfilter]
  rw [if_neg (by omega), if_neg (by simp)]

/-- A `filterMap` whose outputs are fixed points of the function is itself
idempotent. -/
theorem filterMap_fixpoint {α : Type} (f : α → Option α)
    (h : ∀ a b, f a = some b → f b = some b) (l : List α) :
    (l.filterMap f).filterMap f = l.filterMap f := by
  induction l with
  | nil => rfl
  | cons a t ih =>
    cases hfa : f a with
    | none => simp [List.filterMap_cons, hfa, ih]
    | some b => simp [List.filterMap_cons, hfa, h a b hfa, ih]

/-- A statistics entry is keyed by the column it was computed for. -/
theorem statsEntry_key {sampled : List Record} {col : String} {p : String × ColStats}
    (h : statsEntry sampled col = some p) : p.1 = col := by
  simp only [statsEntry] at h
  split at h
  · obtain rfl : _ = p := Option.some_injective _ h
    rfl
  · exact absurd h (by simp)

/-- A column none of whose sampled values converts to a number has no
entry in the statistics result, whatever other columns are requested. -/
theorem stats_lookup_none_aux (sampled : List Record) (cols : List String) (col : String)
    (h : ∀ row ∈ sampled, numValue row col = none) :
    List.lookup col (cols.filterMap (statsEntry sampled)) = none := by
  induction cols with
  | nil => rfl
  | cons c t ih =>
    cases he : statsEntry sampled c with
    | none =>
      simp only [List.filterMap_cons, he]
      exact ih
    | some p =>
      have hkey : p.1 = c := statsEntry_key he
      have hc : ¬c = col := by
        intro hcc
        subst hcc
        simp only [statsEntry] at he
        rw [List.filterMap_eq_nil_iff.mpr h] at he
        simp at he
      simp only [List.filterMap_cons, he]
      obtain ⟨k, st⟩ := p
      simp only at hkey
      subst hkey
      rw [List.lookup_cons]
      simp only [beq_false_of_ne (fun hh => hc hh.symm)]
      exact ih

/-- `bump` preserves the invariant that no counted key is empty. -/
theorem bump_keys_ne {l : List (String × Nat)} {v : String}
    (hv : v ≠ "") (hl : ∀ p ∈ l, p.1 ≠ "") : ∀ p ∈ bump l v, p.1 ≠ "" := by
  induction l with
  | nil =>
    intro p hp
    simp only [bump, List.mem_singleton] at hp
    subst hp
    exact hv
  | cons q t ih =>
    obtain ⟨k, n⟩ := q
    intro p hp
    simp only [bump] at hp
    split at hp
    · rcases List.mem_cons.mp hp with rfl | hmem
      · exact hl (k, n) (by simp)
      · exact hl p (List.mem_cons_of_mem _ hmem)
    · rcases List.mem_cons.mp hp with rfl | hmem
      · exact hl (k, n) (by simp)
      · exact ih (fun q hq => hl q (List.mem_cons_of_mem _ hq)) p hmem

/-- No key of a frequency-count table is the empty string. -/
theorem freqCounts_keys_ne (sampled : List Record) (col : String) :
    ∀ p ∈ freqCounts sampled col, p.1 ≠ "" := by
  unfold freqCounts
  suffices hgen : ∀ (rows : List Record) (acc : List (String × Nat)),
      (∀ p ∈ acc, p.1 ≠ "") →
      ∀ p ∈ rows.foldl (fun counts row =>
        match getVal row col with
        | none => counts
        | some v => if v = "" then counts else bump counts v) acc, p.1 ≠ "" by
    exact hgen sampled [] (by simp)
  intro rows
  induction rows with
  | nil => intro acc hacc; simpa using hacc
  | cons r t ih =>
    intro acc hacc
    simp only [List.foldl_cons]
    apply ih
    cases hv : getVal r col with
    | none => simpa [hv] using hacc
    | some v =>
      by_cases hve : v = ""
      · simpa [hv, hve] using hacc
      · simpa [hv, hve] using bump_keys_ne hve hacc

/-- Looking a requested key up in a keyed `map` finds its image. -/
theorem lookup_map_pair {β : Type} (g : String → β) (cols : List String) (col : String)
    (hcol : col ∈ cols) :
    List.lookup col (cols.map (fun c => (c, g c))) = some (g col) := by
  induction cols with
  | nil => cases hcol
  | cons c t ih =>
    simp only [List.map_cons]
    by_cases hc : col = c
    · subst hc
      rw [List.lookup_cons]
      simp
    · rw [List.lookup_cons]
      simp only [beq_false_of_ne hc]
      exact ih (by rcases List.mem_cons.mp hcol with h | h; exact absurd h hc; exact h)

/-! The claim theorems. -/

/-- C1 (counterexample): the validation pass does not inspect axis
bindings — a chart with one valid series binding and an x-axis bound to
the unknown column `ghost` passes through unchanged, so the output chart
references a column outside the dataset column set, refuting the claim
for axis bindings. -/
theorem validator_keeps_unknown_xaxis :
    validateCharts ["x"] oneColRecord [ghostAxisChart] = [ghostAxisChart] ∧
    ghostAxisChart.xAxis = some ⟨"ghost", "g"⟩ ∧ ¬("ghost" ∈ ["x"]) := by
  refine ⟨by decide, rfl, by decide⟩

/-- C1 (amended): every column name referenced by any series binding of
any chart in the validation output exists in the known-columns set; the
x- and y-axis bindings are not validated and may reference unknown
columns. -/
theorem validator_series_bindings_known (cols : List String) (rec : Record)
    (charts : List Chart) :
    ∀ c ∈ validateCharts cols rec charts, ∀ b ∈ c.dataLinesOrBarsOrAreas, b.dataKey ∈ cols := by
  intro c hc b hb
  rw [validateCharts, List.mem_filterMap] at hc
  obtain ⟨a, _, ha⟩ := hc
  exact List.elem_iff.mp (validateChart_series_contains ha b hb)

/-- C1 (witness): the amended theorem applied to the concrete
single-column dataset and the chart with a valid series binding. -/
theorem validator_series_bindings_known_witness :
    ("x" : String) ∈ ["x"] :=
  validator_series_bindings_known ["x"] oneColRecord [ghostAxisChart] ghostAxisChart
    (by decide) ⟨"line", "x", "#111111", "#111111", true⟩ (by decide)

/-- C2 (counterexample): a `top_n_values` table description whose
`columns`, `groupByColumn` and `nValue` parameters are all absent is
materialized with `data` equal to the empty array — length 0, not 1 —
refuting the claim that this kind always yields a one-element array. -/
theorem materialize_topn_missing_params_empty :
    (materializeTable [] topnMissingParams).data = TableData.emptyArr ∧
    topnMissingParams.type = "top_n_values" :=
  ⟨rfl, rfl⟩

/-- C2 (amended): for every `top_n_values` table description whose
`columns` parameter is present and whose `groupByColumn` and `nValue`
parameters are truthy, materialization yields a one-element `data` array
carrying the placeholder note that names the requested columns, the
group-by column and N; the materializer is a total function, so it never
throws. -/
theorem materialize_topn_placeholder (records : List Record) (td : TableDesc)
    (ht : td.type = "top_n_values") (hc : td.columns.isSome = true)
    (hg : truthyStr td.groupByColumn = true) (hn : truthyInt td.nValue = true) :
    (materializeTable records td).data =
      TableData.notes
        [topNote (td.columns.getD []) (td.groupByColumn.getD "") (td.nValue.getD 0)] := by
  simp only [materializeTable]
  rw [if_neg (by rw [ht]; simp), if_neg (by rw [ht]; simp),
    if_pos ⟨ht, hc, hg, hn⟩]

/-- C2 (witness): the amended theorem applied to a fully parameterized
`top_n_values` description. -/
theorem materialize_topn_placeholder_witness :
    (materializeTable [] topnFullParams).data =
      TableData.notes
        [topNote (topnFullParams.columns.getD []) (topnFullParams.groupByColumn.getD "")
          (topnFullParams.nValue.getD 0)] :=
  materialize_topn_placeholder [] topnFullParams rfl rfl (by decide) (by decide)

/-- C3 (counterexample): for a table description of an unknown kind the
materialized result does carry a `data` entry — the spread
`{ ...tableDesc, data: tableData }` always attaches the field, here with
the empty array as its value — refuting the claim that `.data` remains
absent. -/
theorem materialize_unknown_kind_data_present :
    materializeTable [] unknownKindTable = ⟨unknownKindTable, TableData.emptyArr⟩ := rfl

/-- C3 (amended): for every table description whose kind tag is none of
`summary_statistics`, `frequency_distribution` or `top_n_values`, the
materialized table carries a `data` field equal to the empty array. -/
theorem materialize_unknown_kind_empty_data (records : List Record) (td : TableDesc)
    (h1 : td.type ≠ "summary_statistics") (h2 : td.type ≠ "frequency_distribution")
    (h3 : td.type ≠ "top_n_values") :
    (materializeTable records td).data = TableData.emptyArr := by
  simp only [materializeTable]
  rw [if_neg (fun hh => h1 hh.1), if_neg (fun hh => h2 hh.1), if_neg (fun hh => h3 hh.1)]

/-- C3 (witness): the amended theorem applied to the unknown kind
`pivot`. -/
theorem materialize_unknown_kind_empty_data_witness :
    (materializeTable [] unknownKindTable).data = TableData.emptyArr :=
  materialize_unknown_kind_empty_data [] unknownKindTable (by decide) (by decide) (by decide)

/-- C4: the validation pass is idempotent — applying it twice with the
same known-columns set and representative record yields exactly the list
a single application yields — and any chart all of whose series bindings
reference known columns passes through unchanged. -/
theorem validate_idempotent (cols : List String) (rec : Record) (charts : List Chart) :
    validateCharts cols rec (validateCharts cols rec charts) = validateCharts cols rec charts ∧
    ∀ chart : Chart, (∀ b ∈ chart.dataLinesOrBarsOrAreas, b.dataKey ∈ cols) →
      validateChart cols rec chart = some chart := by
  constructor
  · exact filterMap_fixpoint _ (fun a b hab => validateChart_fix hab) charts
  · intro chart hvalid
    have hfilter : chart.dataLinesOrBarsOrAreas.filter (fun item => cols.contains item.dataKey)
        = chart.dataLinesOrBarsOrAreas :=
      List.filter_eq_self.mpr (fun b hb => List.elem_iff.mpr (hvalid b hb))
    unfold validateChart
    rw [hfilter]
    rw [if_neg (by omega), if_neg (by simp)]

/-- C4 (witness): idempotence and pass-through at a concrete chart list
over the single-column dataset. -/
theorem validate_idempotent_witness :
    validateCharts ["x"] oneColRecord (validateCharts ["x"] oneColRecord [passThroughChart]) =
      validateCharts ["x"] oneColRecord [passThroughChart] ∧
    validateChart ["x"] oneColRecord passThroughChart = some passThroughChart := by
  have h := validate_idempotent ["x"] oneColRecord [passThroughChart]
  exact ⟨h.1, h.2 passThroughChart (by decide)⟩

/-- C5 (counterexample): two divergences from the claim at concrete
inputs.  First, over the dataset whose single numeric column is named by
the empty string, a chart with only invalid series bindings and no
x-axis is repaired, yet its x-axis stays unassigned even though a first
numeric column exists — the truthiness guard `if (firstNonNumericKey)`
skips the assignment.  Second, over the record with an `Infinity`-valued
column `i` before the finite column `x`, the repair synthesizes bindings
over both `i` and `x` and assigns the x-axis to `i`, although `i`
converts to no finite number — the code's `!isNaN(parseFloat(...))`
test accepts the infinities, so the claim's restriction to columns that
convert to a finite number is false of the program. -/
theorem validator_repair_original_claim_false :
    ((validateChart [""] emptyNameRecord ghostSeriesChart).map Chart.xAxis = some none ∧
      List.find? (fun k => isNumericCol emptyNameRecord k) [""] = some "" ∧
      xAxisMissing ghostSeriesChart.xAxis = true) ∧
    ((validateChart ["i", "x"] infXRecord ghostSeriesChart).map
        (fun c => (c.dataLinesOrBarsOrAreas.map SeriesItem.dataKey, c.xAxis.map Axis.dataKey)) =
        some (["i", "x"], some "i") ∧
      jsIsFinite (numValue infXRecord "i") = false) := by
  refine ⟨⟨by decide, by decide, rfl⟩, by decide, by decide⟩

/-- C5 (amended): for every chart whose non-empty series bindings all
reference unknown columns, over a dataset whose representative record has
at least one column accepted by the code's numeric test
`!isNaN(parseFloat(value))` — a test that admits `Infinity` as well as
finite numbers — validation repairs the chart: the new series bindings
range over up to 2 accepted columns in known-columns order, each using
the role derived from the declared chart type and the first declared
color (or the fixed fallback) for both stroke and fill with the
active-dot flag set; the column the x-axis is assigned to (when the
x-axis was absent) is the first accepted column — never a column failing
the test — provided its name is non-empty; when that first column is
named by the empty string the assignment is skipped. -/
theorem validator_repair_synthesizes_numeric (cols : List String) (rec : Record) (chart : Chart)
    (hne : chart.dataLinesOrBarsOrAreas ≠ [])
    (hinv : ∀ b ∈ chart.dataLinesOrBarsOrAreas, b.dataKey ∉ cols)
    (hnum : ∃ k ∈ cols, isNumericCol rec k = true) :
    ∃ c2, validateChart cols rec chart = some c2 ∧
      c2.dataLinesOrBarsOrAreas =
        ((cols.filter (fun k => isNumericCol rec k)).take 2).map (fun k =>
          { type := seriesTypeFor chart.chartType
            dataKey := k
            stroke := firstColor chart.colors
            fill := firstColor chart.colors
            activeDot := true }) ∧
      (∀ k, cols.find? (fun k => isNumericCol rec k) = some k → isNumericCol rec k = true) ∧
      (xAxisMissing chart.xAxis = false → c2.xAxis = chart.xAxis) ∧
      (xAxisMissing chart.xAxis = true →
        ∀ k, cols.find? (fun k => isNumericCol rec k) = some k →
          (k ≠ "" → c2.xAxis = some ⟨k, k⟩) ∧ (k = "" → c2.xAxis = chart.xAxis)) := by
  have hfilter : chart.dataLinesOrBarsOrAreas.filter (fun item => cols.contains item.dataKey)
      = [] :=
    List.filter_eq_nil_iff.mpr (fun b hb => by
      simpa [List.elem_iff] using hinv b hb)
  have hkeys : 0 < (defaultKeysFor cols rec).length := by
    obtain ⟨k, hk, hknum⟩ := hnum
    have : k ∈ cols.filter (fun k => isNumericCol rec k) := List.mem_filter.mpr ⟨hk, hknum⟩
    have hpos : 0 < (cols.filter (fun k => isNumericCol rec k)).length :=
      List.length_pos.mpr (List.ne_nil_of_mem this)
    simp only [defaultKeysFor, List.length_take]
    omega
  refine ⟨assignXAxis cols rec
    { chart with dataLinesOrBarsOrAreas := (defaultKeysFor cols rec).map (synthItem chart) },
    ?_, ?_, ?_, ?_, ?_⟩
  · unfold validateChart
    rw [hfilter]
    rw [if_pos ⟨rfl, List.length_pos.mpr hne⟩]
    unfold repairChart
    rw [if_pos hkeys]
  · rw [assignXAxis_dataLines]
    rfl
  · intro k hk
    exact List.find?_some hk
  · intro hmiss
    unfold assignXAxis
    rw [hmiss]
    simp
  · intro hmiss k hfind
    unfold assignXAxis
    rw [hmiss, hfind]
    constructor
    · intro hkne
      simp [hkne]
    · intro hkeq
      simp [hkeq]

/-- C5 (witness): the amended theorem applied to the ghost-binding chart
over the dataset with numeric columns `x`, `y` and non-numeric column
`label`. -/
theorem validator_repair_synthesizes_numeric_witness :
    ∃ c2, validateChart ["x", "y", "label"] threeColRecord ghostSeriesChart = some c2 ∧
      c2.dataLinesOrBarsOrAreas =
        ((["x", "y", "label"].filter (fun k => isNumericCol threeColRecord k)).take 2).map
          (fun k =>
            { type := seriesTypeFor ghostSeriesChart.chartType
              dataKey := k
              stroke := firstColor ghostSeriesChart.colors
              fill := firstColor ghostSeriesChart.colors
              activeDot := true }) ∧
      (∀ k, ["x", "y", "label"].find? (fun k => isNumericCol threeColRecord k) = some k →
        isNumericCol threeColRecord k = true) ∧
      (xAxisMissing ghostSeriesChart.xAxis = false → c2.xAxis = ghostSeriesChart.xAxis) ∧
      (xAxisMissing ghostSeriesChart.xAxis = true →
        ∀ k, ["x", "y", "label"].find? (fun k => isNumericCol threeColRecord k) = some k →
          (k ≠ "" → c2.xAxis = some ⟨k, k⟩) ∧ (k = "" → c2.xAxis = ghostSeriesChart.xAxis)) :=
  validator_repair_synthesizes_numeric ["x", "y", "label"] threeColRecord ghostSeriesChart
    (by decide) (by decide) (by decide)

/-- C6 (counterexample): at the representative record whose single
column holds `"Infinity"`, a chart with only invalid series bindings
satisfies the claim's hypotheses — no value converts to a finite number —
yet validation does not drop it: `parseFloat("Infinity")` is `Infinity`,
`isNaN(Infinity)` is false, so App.js line 498 keeps the column as a
fallback and the chart is repaired. -/
theorem validator_keeps_infinity_only_chart :
    (validateChart ["a"] infRecord ghostSeriesChart).isSome = true ∧
    jsIsFinite (numValue infRecord "a") = false ∧
    ghostSeriesChart.dataLinesOrBarsOrAreas ≠ [] ∧
    (∀ b ∈ ghostSeriesChart.dataLinesOrBarsOrAreas, ¬(b.dataKey ∈ ["a"])) := by
  refine ⟨by decide, by decide, by decide, by decide⟩

/-- C6 (amended): a chart whose non-empty series bindings all reference
unknown columns is dropped exactly when no column of the representative
record passes the code's numeric test `!isNaN(parseFloat(value))` — so
when every value is NaN under `parseFloat`; a value parsing to
`Infinity` passes the test and prevents the drop. -/
theorem validator_drops_without_numeric (cols : List String) (rec : Record) (chart : Chart)
    (hne : chart.dataLinesOrBarsOrAreas ≠ [])
    (hinv : ∀ b ∈ chart.dataLinesOrBarsOrAreas, b.dataKey ∉ cols)
    (hnonum : ∀ k ∈ cols, isNumericCol rec k = false) :
    validateChart cols rec chart = none := by
  have hfilter : chart.dataLinesOrBarsOrAreas.filter (fun item => cols.contains item.dataKey)
      = [] :=
    List.filter_eq_nil_iff.mpr (fun b hb => by
      simpa [List.elem_iff] using hinv b hb)
  have hkeys : cols.filter (fun k => isNumericCol rec k) = [] :=
    List.filter_eq_nil_iff.mpr (fun k hk => by simp [hnonum k hk])
  unfold validateChart
  rw [hfilter]
  rw [if_pos ⟨rfl, List.length_pos.mpr hne⟩]
  unfold repairChart
  rw [if_neg (by simp [defaultKeysFor, hkeys])]

/-- C6 (witness): the drop theorem applied to the ghost-binding chart
over a dataset whose only column is non-numeric. -/
theorem validator_drops_without_numeric_witness :
    validateChart ["label"] labelOnlyRecord ghostSeriesChart = none :=
  validator_drops_without_numeric ["label"] labelOnlyRecord ghostSeriesChart
    (by decide) (by decide) (by decide)

/-- C7: ingesting the CSV example yields exactly 3 records, and the
numeric statistics of the `score` column are mean 20.00, median 20.00,
min 10.00, max 30.00, population standard deviation 8.16 and count 3. -/
theorem csv_example_statistics :
    parseCsv csvExample =
      [[("name", "A"), ("score", "10")], [("name", "B"), ("score", "20")],
        [("name", "C"), ("score", "30")]] ∧
    (parseCsv csvExample).length = 3 ∧
    getDescriptiveStatistics (parseCsv csvExample) ["score"] =
      [("score",
        { mean := .fin 20, median := .fin 20, min := .fin 10, max := .fin 30,
          stdDev := .fin (816 / 100), count := 3 })] := by
  with_unfolding_all decide

/-- C8 (counterexample): at the one-record dataset whose only value is
`"Infinity"`, the column converts to no finite number, yet the
statistics result does contain an entry for it: `parseFloat("Infinity")`
passes the `!isNaN` filter at App.js line 269, so `values` is non-empty
and the entry is created (with infinite aggregates), refuting the claim
as stated. -/
theorem stats_entry_for_infinity_column :
    (List.lookup "a" (getDescriptiveStatistics [infRecord] ["a"])).isSome = true ∧
    jsIsFinite (numValue infRecord "a") = false := by
  refine ⟨by decide, by decide⟩

/-- C8 (amended): a requested column none of whose sampled values passes
the code's numeric test — `parseFloat` yields NaN on all of them; a
value parsing to `Infinity` passes — is absent from the
numeric-statistics result: no entry at all, not a zero-filled one. -/
theorem stats_omit_nonconvertible_column (data : List Record) (cols : List String) (col : String)
    (hcol : col ∈ cols)
    (h : ∀ row ∈ data.take DATA_SAMPLE_LIMIT_FOR_CALCS, numValue row col = none) :
    List.lookup col (getDescriptiveStatistics data cols) = none :=
  stats_lookup_none_aux _ cols col h

/-- C8 (witness): the omission theorem applied to a one-record dataset
whose only value is non-numeric. -/
theorem stats_omit_nonconvertible_column_witness :
    List.lookup "a" (getDescriptiveStatistics [helloRecord] ["a"]) = none :=
  stats_omit_nonconvertible_column [helloRecord] ["a"] "a" (by decide) (by decide)

/-- C9: numeric statistics and frequency distributions over any dataset
equal those over its first 1000 records, for every requested column set;
in particular this holds for a 5000-record dataset. -/
theorem sampling_bound_first_1000 (data : List Record) (cols : List String) :
    getDescriptiveStatistics data cols = getDescriptiveStatistics (data.take 1000) cols ∧
    getFrequencyDistribution data cols = getFrequencyDistribution (data.take 1000) cols := by
  constructor <;>
    simp [getDescriptiveStatistics, getFrequencyDistribution, DATA_SAMPLE_LIMIT_FOR_CALCS,
      List.take_take]

/-- C10: the frequency-distribution result always has an entry for every
requested column — possibly an empty count table — with no counted value
absent or empty; and, unlike it, the numeric statistics omit a column
entirely when none of its sampled values converts to a number. -/
theorem freq_always_entry (data : List Record) (cols : List String) (col : String)
    (hcol : col ∈ cols) :
    (∃ counts, List.lookup col (getFrequencyDistribution data cols) = some counts ∧
      ∀ p ∈ counts, p.1 ≠ "") ∧
    ((∀ row ∈ data.take DATA_SAMPLE_LIMIT_FOR_CALCS, numValue row col = none) →
      List.lookup col (getDescriptiveStatistics data cols) = none) := by
  constructor
  · refine ⟨freqCounts (data.take DATA_SAMPLE_LIMIT_FOR_CALCS) col, ?_, ?_⟩
    · exact lookup_map_pair _ cols col hcol
    · exact freqCounts_keys_ne _ col
  · intro h
    exact stats_lookup_none_aux _ cols col h

/-- C10 (witness): the entry theorem applied to a one-record dataset
whose only value is the (excluded) empty string: the frequency entry
exists and the statistics entry does not. -/
theorem freq_always_entry_witness :
    (∃ counts, List.lookup "a" (getFrequencyDistribution [emptyValRecord] ["a"]) = some counts ∧
      ∀ p ∈ counts, p.1 ≠ "") ∧
    ((∀ row ∈ ([emptyValRecord] : List Record).take DATA_SAMPLE_LIMIT_FOR_CALCS,
        numValue row "a" = none) →
      List.lookup "a" (getDescriptiveStatistics [emptyValRecord] ["a"]) = none) :=
  freq_always_entry [emptyValRecord] ["a"] "a" (by decide)

end DetaDash
